import Mathlib

/-!
Shallow embedding of `FlightTaskAutoFollowTarget`
(src/lib/flight_tasks/tasks/AutoFollowTarget/FlightTaskAutoFollowTarget.{hpp,cpp}).

Scalars are modelled over the reals.  IEEE-754 non-finite values matter for
this task (NaN setpoint components mean "do not control this axis"), so the
scalar type `Fl` is a real number tagged with an explicit non-finite case:
`Fl.nan` stands for every non-finite float (NaN or an infinity; the source
only ever distinguishes them through `PX4_ISFINITE`, which rejects both, and
through ordered comparisons, which are only reached on values already checked
finite).  Arithmetic propagates `nan` exactly as float arithmetic propagates
non-finite values in the code paths modelled here.

Branch conditions compare real numbers, so the development uses classical
decidability for `if`; definitions are marked `noncomputable` where needed.
-/

open Classical

namespace FlightTaskAutoFollowTarget

/-- A float value: either non-finite (`nan`) or a finite real. -/
inductive Fl where
  | nan : Fl
  | fin : ℝ → Fl

/-- PX4_ISFINITE: true exactly on finite values. -/
def Fl.isfinite : Fl → Prop
  | Fl.nan => False
  | Fl.fin _ => True

/-- Float addition; non-finite operands poison the result. -/
def Fl.add : Fl → Fl → Fl
  | Fl.fin a, Fl.fin b => Fl.fin (a + b)
  | _, _ => Fl.nan

/-- Float subtraction; non-finite operands poison the result. -/
def Fl.sub : Fl → Fl → Fl
  | Fl.fin a, Fl.fin b => Fl.fin (a - b)
  | _, _ => Fl.nan

/-- Float multiplication; non-finite operands poison the result. -/
def Fl.mul : Fl → Fl → Fl
  | Fl.fin a, Fl.fin b => Fl.fin (a * b)
  | _, _ => Fl.nan

/-- Float division.  Division by zero yields a non-finite value (inf or NaN);
all claim-relevant divisions in the source have nonzero denominators. -/
noncomputable def Fl.div : Fl → Fl → Fl
  | Fl.fin a, Fl.fin b => if b = 0 then Fl.nan else Fl.fin (a / b)
  | _, _ => Fl.nan

/-- Float negation. -/
def Fl.neg : Fl → Fl
  | Fl.fin a => Fl.fin (-a)
  | Fl.nan => Fl.nan

/-- fabsf. -/
def Fl.abs : Fl → Fl
  | Fl.fin a => Fl.fin |a|
  | Fl.nan => Fl.nan

/-- cosf; cos of a non-finite value is NaN. -/
noncomputable def Fl.cos : Fl → Fl
  | Fl.fin a => Fl.fin (Real.cos a)
  | Fl.nan => Fl.nan

/-- sinf; sin of a non-finite value is NaN. -/
noncomputable def Fl.sin : Fl → Fl
  | Fl.fin a => Fl.fin (Real.sin a)
  | Fl.nan => Fl.nan

/-- Float `<`: any comparison against a non-finite value is false
(IEEE comparisons with NaN are false; ordered comparisons in the modelled
code paths are only reached on finite values). -/
def Fl.lt : Fl → Fl → Prop
  | Fl.fin a, Fl.fin b => a < b
  | _, _ => False

/-- Float `<=` with the same non-finite convention as `Fl.lt`. -/
def Fl.le : Fl → Fl → Prop
  | Fl.fin a, Fl.fin b => a ≤ b
  | _, _ => False

/-- math::min from the PX4 math library (not under src/).
Modelled from the spec: the Constant altitude branch "clamps to the lesser of
the existing position-setpoint altitude and −minimum_height"; the C template
is `(a < b) ? a : b`, which with a non-finite first argument returns the
second argument. -/
noncomputable def Fl.min (a b : Fl) : Fl := if Fl.lt a b then a else b

@[simp] lemma Fl.isfinite_fin (a : ℝ) : Fl.isfinite (Fl.fin a) := trivial

@[simp] lemma Fl.isfinite_nan : ¬ Fl.isfinite Fl.nan := fun h => h

@[simp] lemma Fl.add_fin (a b : ℝ) : Fl.add (Fl.fin a) (Fl.fin b) = Fl.fin (a + b) := rfl

@[simp] lemma Fl.sub_fin (a b : ℝ) : Fl.sub (Fl.fin a) (Fl.fin b) = Fl.fin (a - b) := rfl

@[simp] lemma Fl.mul_fin (a b : ℝ) : Fl.mul (Fl.fin a) (Fl.fin b) = Fl.fin (a * b) := rfl

@[simp] lemma Fl.neg_fin (a : ℝ) : Fl.neg (Fl.fin a) = Fl.fin (-a) := rfl

@[simp] lemma Fl.abs_fin (a : ℝ) : Fl.abs (Fl.fin a) = Fl.fin |a| := rfl

@[simp] lemma Fl.div_fin (a b : ℝ) :
    Fl.div (Fl.fin a) (Fl.fin b) = if b = 0 then Fl.nan else Fl.fin (a / b) := rfl

@[simp] lemma Fl.lt_fin (a b : ℝ) : Fl.lt (Fl.fin a) (Fl.fin b) ↔ a < b := Iff.rfl

@[simp] lemma Fl.le_fin (a b : ℝ) : Fl.le (Fl.fin a) (Fl.fin b) ↔ a ≤ b := Iff.rfl

@[simp] lemma Fl.lt_nan_left (b : Fl) : ¬ Fl.lt Fl.nan b := by cases b <;> exact fun h => h

@[simp] lemma Fl.fin_inj (a b : ℝ) : Fl.fin a = Fl.fin b ↔ a = b :=
  ⟨fun h => by cases h; rfl, fun h => by rw [h]⟩

/-- matrix::Vector3f (three float components). -/
structure Vec3F where
  x : Fl
  y : Fl
  z : Fl

/-- Componentwise vector addition. -/
def vadd (a b : Vec3F) : Vec3F := ⟨Fl.add a.x b.x, Fl.add a.y b.y, Fl.add a.z b.z⟩

/-- Componentwise vector subtraction. -/
def vsub (a b : Vec3F) : Vec3F := ⟨Fl.sub a.x b.x, Fl.sub a.y b.y, Fl.sub a.z b.z⟩

/-- Vector times scalar. -/
def vmulR (a : Vec3F) (c : ℝ) : Vec3F :=
  ⟨Fl.mul a.x (Fl.fin c), Fl.mul a.y (Fl.fin c), Fl.mul a.z (Fl.fin c)⟩

/-- Vector divided by scalar. -/
noncomputable def vdivR (a : Vec3F) (c : ℝ) : Vec3F :=
  ⟨Fl.div a.x (Fl.fin c), Fl.div a.y (Fl.fin c), Fl.div a.z (Fl.fin c)⟩

-- Constants from FlightTaskAutoFollowTarget.hpp (decimal float literals read
-- at their decimal value).

noncomputable def MINIMUM_SPEED_FOR_HEADING_CHANGE : ℝ := 1/10

noncomputable def MINIMUM_DISTANCE_TO_TARGET_FOR_YAW_CONTROL : ℝ := 1

noncomputable def MINIMUM_SAFETY_ALTITUDE : ℝ := 1

noncomputable def ALT_ACCEPTANCE_THRESHOLD : ℝ := 3

noncomputable def EMERGENCY_ASCENT_SPEED : ℝ := 1/5

noncomputable def POSITION_FILTER_ALPHA : ℝ := 3/2

noncomputable def FOLLOW_ANGLE_FILTER_ALPHA : ℝ := 3

noncomputable def DIRECTION_FILTER_ALPHA : ℝ := 3

noncomputable def VELOCITY_FF_FILTER_ALPHA : ℝ := 1

/-- FLT_EPSILON, exactly 2^-23. -/
noncomputable def FLT_EPSILON : ℝ := 1 / 2 ^ 23

/-- Epsilon of matrix::Vector::unit_or_zero (matrix library, not under src/).
Modelled from the spec: the offset vector fed to the position computation is
"always normalized (unit vector or zero)"; the library guards the division by
the norm with a small positive threshold (default 1e-5). -/
noncomputable def UNIT_EPS : ℝ := 1 / 100000

-- Perspective enum from FlightTaskAutoFollowTarget.hpp (values 0..10 in
-- declaration order).

def FOLLOW_PERSPECTIVE_NONE : ℤ := 0

def FOLLOW_PERSPECTIVE_BEHIND : ℤ := 1

def FOLLOW_PERSPECTIVE_FRONT : ℤ := 2

def FOLLOW_PERSPECTIVE_FRONT_RIGHT : ℤ := 3

def FOLLOW_PERSPECTIVE_FRONT_LEFT : ℤ := 4

def FOLLOW_PERSPECTIVE_MID_RIGHT : ℤ := 5

def FOLLOW_PERSPECTIVE_MID_LEFT : ℤ := 6

def FOLLOW_PERSPECTIVE_BEHIND_RIGHT : ℤ := 7

def FOLLOW_PERSPECTIVE_BEHIND_LEFT : ℤ := 8

def FOLLOW_PERSPECTIVE_MIDDLE_FOLLOW : ℤ := 9

def FOLLOW_ALTITUDE_MODE_CONSTANT : ℤ := 0

def FOLLOW_ALTITUDE_MODE_TRACK_TARGET : ℤ := 1

/-- Angle lookup for the follow-me perspective setting
(`update_follow_me_angle_setting`): a switch over the perspective enum, with
unknown values falling through to the Behind angle (180 degrees). -/
noncomputable def update_follow_me_angle_setting (p : ℤ) : ℝ :=
  if p = FOLLOW_PERSPECTIVE_BEHIND then 180
  else if p = FOLLOW_PERSPECTIVE_FRONT then 0
  else if p = FOLLOW_PERSPECTIVE_FRONT_RIGHT then 45
  else if p = FOLLOW_PERSPECTIVE_FRONT_LEFT then 315
  else if p = FOLLOW_PERSPECTIVE_MID_RIGHT then 90
  else if p = FOLLOW_PERSPECTIVE_MID_LEFT then 270
  else if p = FOLLOW_PERSPECTIVE_BEHIND_RIGHT then 135
  else if p = FOLLOW_PERSPECTIVE_BEHIND_LEFT then 225
  else if p = FOLLOW_PERSPECTIVE_MIDDLE_FOLLOW then 180
  else 180

/-- Angle unwrap (FlightTaskAutoFollowTarget.cpp lines 121-129): assign the
new target angle, shifted by ±360 when the difference to the current raw
angle exceeds ±180, so the low-pass filter takes a short rotational path. -/
noncomputable def angleUnwrap (cur new : ℝ) : ℝ :=
  if cur - new > 180 then new + 360
  else if cur - new < -180 then new - 360
  else new

/-- Bookkeeping wrap of the filtered follow angle (lines 138-146): when the
filter state leaves (-360, 360), shift the filter state and the raw angle by
the same 360-degree step.  Returns (filter state, raw angle). -/
noncomputable def angleWrapStep (filtered raw : ℝ) : ℝ × ℝ :=
  if filtered > 360 then (filtered - 360, raw - 360)
  else if filtered < -360 then (filtered + 360, raw + 360)
  else (filtered, raw)

/-- AlphaFilter blend coefficient.  Modelled from the spec: the AlphaFilter
library (lib/ecl/AlphaFilter, not under src/) recomputes
`alpha = dt / (time_constant + dt)` on every `setParameters` call. -/
noncomputable def alphaOf (dt tc : ℝ) : ℝ := dt / (tc + dt)

/-- AlphaFilter scalar update.  Modelled from the spec: `update(sample)` sets
`state = state*(1-alpha) + sample*alpha`. -/
noncomputable def filterUpdate (alpha state sample : ℝ) : ℝ :=
  state * (1 - alpha) + sample * alpha

/-- AlphaFilter update for a 2-D real vector (componentwise blend).
Modelled from the spec: the filter is generic over scalar and small vector
types with componentwise blending. -/
noncomputable def filterUpdateV2 (alpha : ℝ) (state sample : ℝ × ℝ) : ℝ × ℝ :=
  (filterUpdate alpha state.1 sample.1, filterUpdate alpha state.2 sample.2)

/-- AlphaFilter update for a float 3-vector (componentwise blend, non-finite
samples or states poison the affected component).  Modelled from the spec,
as for `filterUpdate`. -/
noncomputable def filterUpdateV3 (alpha : ℝ) (state sample : Vec3F) : Vec3F :=
  ⟨Fl.add (Fl.mul state.x (Fl.fin (1 - alpha))) (Fl.mul sample.x (Fl.fin alpha)),
   Fl.add (Fl.mul state.y (Fl.fin (1 - alpha))) (Fl.mul sample.y (Fl.fin alpha)),
   Fl.add (Fl.mul state.z (Fl.fin (1 - alpha))) (Fl.mul sample.z (Fl.fin alpha))⟩

/-- One pass of lines 114-146: look the target angle up, unwrap it against
the current raw angle, low-pass it, and apply the bookkeeping wrap.
Returns (filter state, raw angle). -/
noncomputable def followAngleStep (dt : ℝ) (fs : ℤ) (raw filtered : ℝ) : ℝ × ℝ :=
  let targetAngle := update_follow_me_angle_setting fs
  let raw1 := angleUnwrap raw targetAngle
  let filtered1 := filterUpdate (alphaOf dt FOLLOW_ANGLE_FILTER_ALPHA) filtered raw1
  angleWrapStep filtered1 raw1

/-- Target predictor (`predict_future_x_ned_est`): forward-integrate the
estimated position by `x + v*dt + 0.5*a*dt*dt`. -/
noncomputable def predict_future_x_ned_est (deltatime : ℝ) (x_ned_est v_ned_est a_ned_est : Vec3F) : Vec3F :=
  vadd (vadd x_ned_est (vmulR v_ned_est deltatime))
       (vmulR (vmulR (vmulR a_ned_est (1/2)) deltatime) deltatime)

/-- Euclidean norm of a real 2-vector. -/
noncomputable def norm2 (v : ℝ × ℝ) : ℝ := Real.sqrt (v.1 ^ 2 + v.2 ^ 2)

/-- matrix::Vector2f::unit_or_zero (matrix library, not under src/).
Modelled from the spec: divide by the norm when it exceeds a small positive
threshold, else return the zero vector, so the result is "a unit vector or
zero". -/
noncomputable def unitOrZero (v : ℝ × ℝ) : ℝ × ℝ :=
  if norm2 v > UNIT_EPS then (v.1 / norm2 v, v.2 / norm2 v) else (0, 0)

/-- follow_target_estimator message: timestamp (microseconds, monotone),
validity flag, and estimated position / velocity / acceleration in NED. -/
structure Estimator where
  timestamp : ℕ
  valid : Bool
  pos : Vec3F
  vel : Vec3F
  acc : Vec3F

/-- follow_target_status message (filtered target position, for debugging). -/
structure Status where
  timestamp : ℕ
  x_est_filtered : Fl
  y_est_filtered : Fl
  z_est_filtered : Fl

/-- Controller state owned by the flight task: raw and filtered follow
angle, the three smoothing filters, the retained target heading unit vector,
the setpoint outputs (fed back as previous setpoints), and the held copy of
the last estimator message. -/
structure State where
  follow_angle_deg : ℝ
  follow_angle_filtered : ℝ
  target_position_filtered : Vec3F
  offset_vector_filtered : ℝ × ℝ
  velocity_ff_scale : ℝ
  target_velocity_unit_vector : ℝ × ℝ
  position_setpoint : Vec3F
  velocity_setpoint : Vec3F
  yaw_setpoint : Fl
  yawspeed_setpoint : ℝ
  follow_target_estimator : Estimator

/-- Per-cycle inputs supplied by the surrounding flight-task framework:
the polled estimator message (if a new one arrived), the cycle duration,
vehicle position, distance-to-ground reading (may be non-finite), the clock,
and the four tunable parameters. -/
structure Input where
  new_estimate : Option Estimator
  deltatime : ℝ
  position : Vec3F
  dist_to_bottom : Fl
  now : ℕ
  nav_min_ft_ht : ℝ
  nav_ft_dst : ℝ
  nav_ft_fs : ℤ
  nav_ft_alt_m : ℤ

/-- Freshness of the held estimate (line 89): `timestamp > 0 && valid`. -/
def isFresh (e : Estimator) : Prop := 0 < e.timestamp ∧ e.valid = true

/-- Heading-change guard of lines 150-151 and 202: the norm of the estimated
velocity is at least `c`.  A non-finite velocity fails every comparison. -/
noncomputable def speedAtLeast (v : Vec3F) (c : ℝ) : Prop :=
  match v with
  | ⟨Fl.fin vx, Fl.fin vy, Fl.fin vz⟩ => Real.sqrt (vx ^ 2 + vy ^ 2 + vz ^ 2) ≥ c
  | _ => False

/-- Lines 148-155: when the target moves fast enough for its heading to be
meaningful, recompute the retained heading unit vector from the horizontal
velocity; otherwise keep the previous value. -/
noncomputable def updateTvuv (v : Vec3F) (old : ℝ × ℝ) : ℝ × ℝ :=
  match v with
  | ⟨Fl.fin vx, Fl.fin vy, Fl.fin vz⟩ =>
      if Real.sqrt (vx ^ 2 + vy ^ 2 + vz ^ 2) > MINIMUM_SPEED_FOR_HEADING_CHANGE ∧
         Real.sqrt (vx ^ 2 + vy ^ 2 + vz ^ 2) > FLT_EPSILON
      then unitOrZero (vx, vy) else old
  | _ => old

/-- Lines 94-168 of the fresh-estimate branch: reset the target-position
filter when its state is not finite, low-pass the predicted target position,
and (unless the perspective is None, which forces the offset filter to zero)
run the follow-angle pipeline and the offset-vector filter. -/
noncomputable def postFilterState (s : State) (i : Input) : State :=
  let est := s.follow_target_estimator
  let tpf0 :=
    if ¬ Fl.isfinite s.target_position_filtered.x ∨ ¬ Fl.isfinite s.target_position_filtered.y ∨
       ¬ Fl.isfinite s.target_position_filtered.z
    then est.pos else s.target_position_filtered
  let predicted := predict_future_x_ned_est POSITION_FILTER_ALPHA est.pos est.vel est.acc
  let tpf := filterUpdateV3 (alphaOf i.deltatime POSITION_FILTER_ALPHA) tpf0 predicted
  if i.nav_ft_fs = FOLLOW_PERSPECTIVE_NONE then
    { s with target_position_filtered := tpf, offset_vector_filtered := (0, 0) }
  else
    let p := followAngleStep i.deltatime i.nav_ft_fs s.follow_angle_deg s.follow_angle_filtered
    let tvuv2 := updateTvuv est.vel s.target_velocity_unit_vector
    let rad := p.1 * (Real.pi / 180)
    let offv : ℝ × ℝ := (Real.cos rad * tvuv2.1 - Real.sin rad * tvuv2.2,
                         Real.sin rad * tvuv2.1 + Real.cos rad * tvuv2.2)
    let ovf2 := filterUpdateV2 (alphaOf i.deltatime DIRECTION_FILTER_ALPHA)
                  s.offset_vector_filtered offv
    { s with target_position_filtered := tpf,
             follow_angle_filtered := p.1,
             follow_angle_deg := p.2,
             target_velocity_unit_vector := tvuv2,
             offset_vector_filtered := ovf2 }

/-- Altitude switch of lines 178-191: TrackTarget puts the drone
`minimum_height` above the filtered target altitude; Constant, and any
unrecognized selector value, falls through to the clamp
`min(previous position-setpoint altitude, -minimum_height)`. -/
noncomputable def desiredAltitude (mode : ℤ) (target_z prev_z : Fl) (min_ht : ℝ) : Fl :=
  if mode = FOLLOW_ALTITUDE_MODE_TRACK_TARGET then Fl.sub target_z (Fl.fin min_ht)
  else Fl.min prev_z (Fl.fin (-min_ht))

/-- Lines 170-191: desired drone position = filtered target position plus
the normalized filtered offset vector scaled by the configured follow
distance, with the altitude from the altitude-mode switch.  Runs on the
state already updated by `postFilterState`. -/
noncomputable def droneDesiredPosition (s : State) (i : Input) : Vec3F :=
  let u := unitOrZero s.offset_vector_filtered
  { x := Fl.add s.target_position_filtered.x (Fl.fin (u.1 * i.nav_ft_dst)),
    y := Fl.add s.target_position_filtered.y (Fl.fin (u.2 * i.nav_ft_dst)),
    z := desiredAltitude i.nav_ft_alt_m s.target_position_filtered.z
           s.position_setpoint.z i.nav_min_ft_ht }

/-- Lines 193-225: commit the position and velocity setpoints.  When the
desired position is finite and the altitude error is inside the acceptance
band, the velocity setpoint is the feed-forward term
`(desired - previous setpoint) / dt` scaled by the ff filter's current
(pre-update) state, and the desired position becomes the setpoint; when only
the altitude is off, hold horizontally and command the desired altitude;
when the desired position is non-finite, hold the current position with zero
velocity.  The ff-scale filter is then ramped toward 1 exactly when the
desired position was accepted and the target is fast, else toward 0. -/
noncomputable def setpointStage (s : State) (i : Input) : State :=
  let desired := droneDesiredPosition s i
  let t : Vec3F × Vec3F × ℝ :=
    if Fl.isfinite desired.x ∧ Fl.isfinite desired.y ∧ Fl.isfinite desired.z then
      if Fl.lt (Fl.abs (Fl.sub desired.z i.position.z)) (Fl.fin ALT_ACCEPTANCE_THRESHOLD) then
        (desired,
         vmulR (vdivR (vsub desired s.position_setpoint) i.deltatime) s.velocity_ff_scale,
         if speedAtLeast s.follow_target_estimator.vel MINIMUM_SPEED_FOR_HEADING_CHANGE
         then 1 else 0)
      else
        (⟨i.position.x, i.position.y, desired.z⟩, s.velocity_setpoint, 0)
    else
      (i.position, ⟨Fl.fin 0, Fl.fin 0, Fl.fin 0⟩, 0)
  { s with position_setpoint := t.1,
           velocity_setpoint := t.2.1,
           velocity_ff_scale :=
             filterUpdate (alphaOf i.deltatime VELOCITY_FF_FILTER_ALPHA) s.velocity_ff_scale t.2.2 }

/-- Emergency ground-clearance override (lines 227-233): with a finite
distance-to-ground reading below the safety altitude, null the horizontal
position and velocity setpoints, hold the current altitude, and command the
fixed slow ascent. -/
noncomputable def overrideStage (s : State) (i : Input) : State :=
  if Fl.isfinite i.dist_to_bottom ∧ Fl.lt i.dist_to_bottom (Fl.fin MINIMUM_SAFETY_ALTITUDE) then
    { s with position_setpoint := ⟨Fl.nan, Fl.nan, i.position.z⟩,
             velocity_setpoint := ⟨Fl.fin 0, Fl.fin 0, Fl.fin (-EMERGENCY_ASCENT_SPEED)⟩ }
  else s

/-- atan2f on float operands; non-finite operands give NaN.  The finite
value is the argument of the complex number x + y*I. -/
noncomputable def atan2F (y x : Fl) : Fl :=
  match y, x with
  | Fl.fin a, Fl.fin b => Fl.fin (Complex.arg ⟨b, a⟩)
  | _, _ => Fl.nan

/-- Euclidean norm of a float 2-vector (NaN components poison it). -/
noncomputable def normF2 (v : Fl × Fl) : Fl :=
  match v with
  | (Fl.fin a, Fl.fin b) => Fl.fin (Real.sqrt (a ^ 2 + b ^ 2))
  | _ => Fl.nan

/-- Yaw setpoint (lines 235-241): when the drone is far enough from the
filtered target position horizontally, face the target; otherwise keep the
previous yaw setpoint. -/
noncomputable def yawStage (s : State) (i : Input) : State :=
  let ttd : Fl × Fl := (Fl.sub i.position.x s.target_position_filtered.x,
                        Fl.sub i.position.y s.target_position_filtered.y)
  if Fl.le (Fl.fin MINIMUM_DISTANCE_TO_TARGET_FOR_YAW_CONTROL) (normF2 ttd) then
    { s with yaw_setpoint := atan2F (Fl.neg ttd.2) (Fl.neg ttd.1) }
  else s

/-- FlightTaskAutoFollowTarget::update.  Poll the estimator topic; with a
fresh held estimate run the tracking pipeline (filters, setpoints, override,
yaw); with a stale one command a horizontal hold (NaN horizontal position,
zero horizontal velocity).  The status message carrying the filtered target
position is produced either way.  The base-class FlightTask::update call and
the takeoff bookkeeping are outside this core and not modelled. -/
noncomputable def update (s : State) (i : Input) : State × Status :=
  let est := i.new_estimate.getD s.follow_target_estimator
  let s0 : State := { s with follow_target_estimator := est }
  let s1 : State :=
    if isFresh est then
      yawStage (overrideStage (setpointStage (postFilterState s0 i) i) i) i
    else
      { s0 with
        position_setpoint := ⟨Fl.nan, Fl.nan, s0.position_setpoint.z⟩,
        velocity_setpoint := ⟨Fl.fin 0, Fl.fin 0, s0.velocity_setpoint.z⟩ }
  (s1, { timestamp := i.now,
         x_est_filtered := s1.target_position_filtered.x,
         y_est_filtered := s1.target_position_filtered.y,
         z_est_filtered := s1.target_position_filtered.z })

/-- Result of the base-class FlightTask::activate call.  Modelled from the
spec: the general flight-task activation is out of scope and activation
"always succeeds" with no error outcome. -/
def FlightTask_activate_result : Bool := true

/-- FlightTaskAutoFollowTarget::activate (lines 46-76): seed the position
setpoint from the vehicle position (the source re-assigns the same value
when it is non-finite), reset the target-position filter to all-NaN, reset
the offset-vector filter to the current heading unit vector when that is
finite and to (1, 0) otherwise (the source first resets it to (0, 0) and
immediately overwrites it), reset the follow-angle and ff-scale filters to
0, and zero the yawspeed setpoint. -/
noncomputable def activate (last_setpoint : Vec3F) (pos : Vec3F) (yaw : Fl) (s : State) :
    State × Bool :=
  let psp0 := pos
  let psp := if ¬ Fl.isfinite psp0.x ∨ ¬ Fl.isfinite psp0.y ∨ ¬ Fl.isfinite psp0.z
             then pos else psp0
  let heading : Fl × Fl := (Fl.cos yaw, Fl.neg (Fl.sin yaw))
  let ovf : ℝ × ℝ :=
    match heading with
    | (Fl.fin hx, Fl.fin hy) => (hx, hy)
    | _ => (1, 0)
  ({ s with position_setpoint := psp,
            target_position_filtered := ⟨Fl.nan, Fl.nan, Fl.nan⟩,
            offset_vector_filtered := ovf,
            follow_angle_filtered := 0,
            velocity_ff_scale := 0,
            yawspeed_setpoint := 0 },
   FlightTask_activate_result)

-- Concrete values used to instantiate the theorems below.

noncomputable def zeroV3 : Vec3F := ⟨Fl.fin 0, Fl.fin 0, Fl.fin 0⟩

/-- An estimator message that is stale (timestamp 0). -/
noncomputable def staleEstimator : Estimator :=
  { timestamp := 0, valid := false, pos := zeroV3, vel := zeroV3, acc := zeroV3 }

/-- A fresh estimator message reporting a target at rest at the origin. -/
noncomputable def freshEstimator : Estimator :=
  { timestamp := 1, valid := true, pos := zeroV3, vel := zeroV3, acc := zeroV3 }

/-- A fresh estimator message for a target at (2,0,0) moving at (1,0,0). -/
noncomputable def movingEstimator : Estimator :=
  { timestamp := 1, valid := true,
    pos := ⟨Fl.fin 2, Fl.fin 0, Fl.fin 0⟩,
    vel := ⟨Fl.fin 1, Fl.fin 0, Fl.fin 0⟩, acc := zeroV3 }

/-- A controller state with everything at rest and a stale held estimate. -/
noncomputable def baseState : State :=
  { follow_angle_deg := 0, follow_angle_filtered := 0,
    target_position_filtered := zeroV3, offset_vector_filtered := (1, 0),
    velocity_ff_scale := 0, target_velocity_unit_vector := (0, 0),
    position_setpoint := zeroV3, velocity_setpoint := zeroV3,
    yaw_setpoint := Fl.fin 0, yawspeed_setpoint := 0,
    follow_target_estimator := staleEstimator }

/-- The resting state holding a fresh estimate. -/
noncomputable def freshState : State :=
  { baseState with follow_target_estimator := freshEstimator }

/-- Input with no new message, a one-second cycle, perspective None,
Constant altitude mode, and a finite 0.5 m distance-to-ground reading. -/
noncomputable def lowGroundInput : Input :=
  { new_estimate := none, deltatime := 1, position := zeroV3,
    dist_to_bottom := Fl.fin (1/2), now := 0, nav_min_ft_ht := 0, nav_ft_dst := 0,
    nav_ft_fs := 0, nav_ft_alt_m := 0 }

/-- The same input with no usable distance-to-ground reading. -/
noncomputable def noGroundInput : Input :=
  { lowGroundInput with dist_to_bottom := Fl.nan }

/-- Input selecting the Behind perspective (no ground reading). -/
noncomputable def behindInput : Input :=
  { noGroundInput with nav_ft_fs := FOLLOW_PERSPECTIVE_BEHIND }

/-- A state as reachable right after a cycle with perspective None (offset
filter at (0, 0)) while the target's heading is still unknown, holding a
fresh estimate of a resting target and sitting at the Behind raw angle. -/
noncomputable def offsetZeroState : State :=
  { baseState with follow_target_estimator := freshEstimator,
                   offset_vector_filtered := (0, 0),
                   follow_angle_deg := 180, follow_angle_filtered := 180 }

/-- Input with the target estimate fresh, one-second cycles, and a moving
target, used to exercise the feed-forward ramp. -/
noncomputable def movingState : State :=
  { baseState with follow_target_estimator := movingEstimator,
                   target_position_filtered := ⟨Fl.fin 2, Fl.fin 0, Fl.fin 0⟩ }

-- Helper lemmas about the stages.

lemma update_stale (s : State) (i : Input)
    (h : ¬ isFresh (i.new_estimate.getD s.follow_target_estimator)) :
    update s i =
      ({ s with follow_target_estimator := i.new_estimate.getD s.follow_target_estimator,
                position_setpoint := ⟨Fl.nan, Fl.nan, s.position_setpoint.z⟩,
                velocity_setpoint := ⟨Fl.fin 0, Fl.fin 0, s.velocity_setpoint.z⟩ },
       { timestamp := i.now,
         x_est_filtered := s.target_position_filtered.x,
         y_est_filtered := s.target_position_filtered.y,
         z_est_filtered := s.target_position_filtered.z }) := by
  simp only [update]
  rw [if_neg h]

lemma update_fresh (s : State) (i : Input)
    (h : isFresh (i.new_estimate.getD s.follow_target_estimator)) :
    (update s i).1 =
      yawStage (overrideStage (setpointStage (postFilterState
        { s with follow_target_estimator := i.new_estimate.getD s.follow_target_estimator }
        i) i) i) i := by
  simp only [update]
  rw [if_pos h]

lemma yawStage_eq (s : State) (i : Input) :
    (yawStage s i).position_setpoint = s.position_setpoint ∧
    (yawStage s i).velocity_setpoint = s.velocity_setpoint ∧
    (yawStage s i).velocity_ff_scale = s.velocity_ff_scale ∧
    (yawStage s i).target_position_filtered = s.target_position_filtered ∧
    (yawStage s i).follow_angle_filtered = s.follow_angle_filtered ∧
    (yawStage s i).follow_angle_deg = s.follow_angle_deg ∧
    (yawStage s i).offset_vector_filtered = s.offset_vector_filtered := by
  simp only [yawStage]
  split_ifs <;> exact ⟨rfl, rfl, rfl, rfl, rfl, rfl, rfl⟩

lemma overrideStage_eq (s : State) (i : Input) :
    (overrideStage s i).target_position_filtered = s.target_position_filtered ∧
    (overrideStage s i).follow_angle_filtered = s.follow_angle_filtered ∧
    (overrideStage s i).follow_angle_deg = s.follow_angle_deg ∧
    (overrideStage s i).offset_vector_filtered = s.offset_vector_filtered ∧
    (overrideStage s i).velocity_ff_scale = s.velocity_ff_scale := by
  unfold overrideStage
  split_ifs <;> exact ⟨rfl, rfl, rfl, rfl, rfl⟩

lemma overrideStage_active (s : State) (i : Input)
    (h : Fl.isfinite i.dist_to_bottom ∧ Fl.lt i.dist_to_bottom (Fl.fin MINIMUM_SAFETY_ALTITUDE)) :
    (overrideStage s i).position_setpoint = ⟨Fl.nan, Fl.nan, i.position.z⟩ ∧
    (overrideStage s i).velocity_setpoint =
      ⟨Fl.fin 0, Fl.fin 0, Fl.fin (-EMERGENCY_ASCENT_SPEED)⟩ := by
  unfold overrideStage
  rw [if_pos h]
  exact ⟨rfl, rfl⟩

lemma overrideStage_skip (s : State) (i : Input)
    (h : ¬ (Fl.isfinite i.dist_to_bottom ∧
            Fl.lt i.dist_to_bottom (Fl.fin MINIMUM_SAFETY_ALTITUDE))) :
    overrideStage s i = s := by
  unfold overrideStage
  rw [if_neg h]

lemma setpointStage_eq (s : State) (i : Input) :
    (setpointStage s i).target_position_filtered = s.target_position_filtered ∧
    (setpointStage s i).follow_angle_filtered = s.follow_angle_filtered ∧
    (setpointStage s i).follow_angle_deg = s.follow_angle_deg ∧
    (setpointStage s i).offset_vector_filtered = s.offset_vector_filtered :=
  ⟨rfl, rfl, rfl, rfl⟩

lemma postFilterState_eq (s : State) (i : Input) :
    (postFilterState s i).position_setpoint = s.position_setpoint ∧
    (postFilterState s i).velocity_setpoint = s.velocity_setpoint ∧
    (postFilterState s i).velocity_ff_scale = s.velocity_ff_scale ∧
    (postFilterState s i).follow_target_estimator = s.follow_target_estimator := by
  unfold postFilterState
  split_ifs <;> exact ⟨rfl, rfl, rfl, rfl⟩

lemma setpointStage_inband (s : State) (i : Input)
    (hfin : Fl.isfinite (droneDesiredPosition s i).x ∧
            Fl.isfinite (droneDesiredPosition s i).y ∧
            Fl.isfinite (droneDesiredPosition s i).z)
    (hband : Fl.lt (Fl.abs (Fl.sub (droneDesiredPosition s i).z i.position.z))
                   (Fl.fin ALT_ACCEPTANCE_THRESHOLD)) :
    (setpointStage s i).position_setpoint = droneDesiredPosition s i ∧
    (setpointStage s i).velocity_setpoint =
      vmulR (vdivR (vsub (droneDesiredPosition s i) s.position_setpoint) i.deltatime)
        s.velocity_ff_scale ∧
    (setpointStage s i).velocity_ff_scale =
      filterUpdate (alphaOf i.deltatime VELOCITY_FF_FILTER_ALPHA) s.velocity_ff_scale
        (if speedAtLeast s.follow_target_estimator.vel MINIMUM_SPEED_FOR_HEADING_CHANGE
         then 1 else 0) := by
  simp only [setpointStage]
  rw [if_pos hfin, if_pos hband]
  exact ⟨rfl, rfl, rfl⟩

lemma setpointStage_outband (s : State) (i : Input)
    (hfin : Fl.isfinite (droneDesiredPosition s i).x ∧
            Fl.isfinite (droneDesiredPosition s i).y ∧
            Fl.isfinite (droneDesiredPosition s i).z)
    (hband : ¬ Fl.lt (Fl.abs (Fl.sub (droneDesiredPosition s i).z i.position.z))
                     (Fl.fin ALT_ACCEPTANCE_THRESHOLD)) :
    (setpointStage s i).position_setpoint =
      ⟨i.position.x, i.position.y, (droneDesiredPosition s i).z⟩ := by
  simp only [setpointStage]
  rw [if_pos hfin, if_neg hband]

-- Bounds used by the follow-angle invariant.

lemma angle_setting_bounds (p : ℤ) :
    0 ≤ update_follow_me_angle_setting p ∧ update_follow_me_angle_setting p ≤ 315 := by
  unfold update_follow_me_angle_setting
  split_ifs <;> norm_num

lemma angleUnwrap_range (cur new : ℝ) :
    angleUnwrap cur new = new + 360 ∨ angleUnwrap cur new = new - 360 ∨
    angleUnwrap cur new = new := by
  unfold angleUnwrap
  split_ifs
  · exact Or.inl rfl
  · exact Or.inr (Or.inl rfl)
  · exact Or.inr (Or.inr rfl)

lemma angleUnwrap_bounds (cur : ℝ) (p : ℤ) :
    -360 ≤ angleUnwrap cur (update_follow_me_angle_setting p) ∧
    angleUnwrap cur (update_follow_me_angle_setting p) ≤ 675 := by
  obtain ⟨h0, h1⟩ := angle_setting_bounds p
  rcases angleUnwrap_range cur (update_follow_me_angle_setting p) with h | h | h <;>
    rw [h] <;> constructor <;> linarith

lemma alphaOf_mem (dt tc : ℝ) (hdt : 0 ≤ dt) (htc : 0 < tc) :
    0 ≤ alphaOf dt tc ∧ alphaOf dt tc ≤ 1 := by
  unfold alphaOf
  constructor
  · positivity
  · rw [div_le_one (by linarith)]
    linarith

lemma filterUpdate_bounds (alpha f r : ℝ) (ha : 0 ≤ alpha) (ha1 : alpha ≤ 1)
    (hf0 : -360 ≤ f) (hf1 : f ≤ 360) (hr0 : -360 ≤ r) (hr1 : r ≤ 675) :
    -360 ≤ filterUpdate alpha f r ∧ filterUpdate alpha f r ≤ 675 := by
  unfold filterUpdate
  constructor
  · nlinarith [mul_nonneg (by linarith : (0:ℝ) ≤ f + 360) (by linarith : (0:ℝ) ≤ 1 - alpha),
               mul_nonneg (by linarith : (0:ℝ) ≤ r + 360) ha]
  · nlinarith [mul_nonneg (by linarith : (0:ℝ) ≤ 675 - f) (by linarith : (0:ℝ) ≤ 1 - alpha),
               mul_nonneg (by linarith : (0:ℝ) ≤ 675 - r) ha]

lemma angleWrapStep_bounds (b r : ℝ) (h0 : -360 ≤ b) (h1 : b ≤ 675) :
    -360 ≤ (angleWrapStep b r).1 ∧ (angleWrapStep b r).1 ≤ 360 := by
  unfold angleWrapStep
  split_ifs with hb hb' <;> constructor <;> simp <;> linarith

lemma followAngleStep_bounds (dt : ℝ) (fs : ℤ) (raw filtered : ℝ)
    (hdt : 0 ≤ dt) (h0 : -360 ≤ filtered) (h1 : filtered ≤ 360) :
    -360 ≤ (followAngleStep dt fs raw filtered).1 ∧
    (followAngleStep dt fs raw filtered).1 ≤ 360 := by
  unfold followAngleStep
  obtain ⟨hu0, hu1⟩ := angleUnwrap_bounds raw fs
  obtain ⟨ha0, ha1⟩ := alphaOf_mem dt FOLLOW_ANGLE_FILTER_ALPHA hdt (by norm_num [FOLLOW_ANGLE_FILTER_ALPHA])
  obtain ⟨hb0, hb1⟩ := filterUpdate_bounds _ _ _ ha0 ha1 h0 h1 hu0 hu1
  exact angleWrapStep_bounds _ _ hb0 hb1

-- Claims C2 and C10: stale-estimate cycles.

/-- Claim C2: whenever the held target estimate is stale (timestamp 0 or
invalid), update() sets both horizontal position-setpoint components to NaN
and both horizontal velocity-setpoint components to exactly zero, leaves all
tracking state (filters, raw angle, heading vector) untouched, and still
produces the diagnostic status record with the filtered target position. -/
theorem claim_C2_stale_hold (s : State) (i : Input)
    (h : ¬ isFresh (i.new_estimate.getD s.follow_target_estimator)) :
    (update s i).1.position_setpoint.x = Fl.nan ∧
    (update s i).1.position_setpoint.y = Fl.nan ∧
    (update s i).1.velocity_setpoint.x = Fl.fin 0 ∧
    (update s i).1.velocity_setpoint.y = Fl.fin 0 ∧
    (update s i).1.target_position_filtered = s.target_position_filtered ∧
    (update s i).1.follow_angle_filtered = s.follow_angle_filtered ∧
    (update s i).1.follow_angle_deg = s.follow_angle_deg ∧
    (update s i).1.offset_vector_filtered = s.offset_vector_filtered ∧
    (update s i).1.velocity_ff_scale = s.velocity_ff_scale ∧
    (update s i).1.target_velocity_unit_vector = s.target_velocity_unit_vector ∧
    (update s i).2 = { timestamp := i.now,
                       x_est_filtered := s.target_position_filtered.x,
                       y_est_filtered := s.target_position_filtered.y,
                       z_est_filtered := s.target_position_filtered.z } := by
  rw [update_stale s i h]
  exact ⟨rfl, rfl, rfl, rfl, rfl, rfl, rfl, rfl, rfl, rfl, rfl⟩

/-- Witness for claim C2 at a concrete stale input. -/
theorem claim_C2_stale_hold_witness :
    ¬ isFresh (lowGroundInput.new_estimate.getD baseState.follow_target_estimator) ∧
    (update baseState lowGroundInput).1.position_setpoint.x = Fl.nan ∧
    (update baseState lowGroundInput).1.velocity_setpoint.x = Fl.fin 0 :=
  have h : ¬ isFresh (lowGroundInput.new_estimate.getD baseState.follow_target_estimator) := by
    simp [isFresh, lowGroundInput, baseState, staleEstimator]
  ⟨h, (claim_C2_stale_hold baseState lowGroundInput h).1,
      (claim_C2_stale_hold baseState lowGroundInput h).2.2.1⟩

/-- Claim C10: a stale cycle modifies only the horizontal setpoint
components (and refreshes the held estimator copy from the poll); the
vertical position and velocity setpoints, the yaw and yawspeed setpoints,
and every internal filter state are unchanged. -/
theorem claim_C10_stale_frame (s : State) (i : Input)
    (h : ¬ isFresh (i.new_estimate.getD s.follow_target_estimator)) :
    (update s i).1.position_setpoint.z = s.position_setpoint.z ∧
    (update s i).1.velocity_setpoint.z = s.velocity_setpoint.z ∧
    (update s i).1.yaw_setpoint = s.yaw_setpoint ∧
    (update s i).1.yawspeed_setpoint = s.yawspeed_setpoint ∧
    (update s i).1.target_position_filtered = s.target_position_filtered ∧
    (update s i).1.follow_angle_deg = s.follow_angle_deg ∧
    (update s i).1.follow_angle_filtered = s.follow_angle_filtered ∧
    (update s i).1.offset_vector_filtered = s.offset_vector_filtered ∧
    (update s i).1.velocity_ff_scale = s.velocity_ff_scale ∧
    (update s i).1.target_velocity_unit_vector = s.target_velocity_unit_vector ∧
    (update s i).1 =
      { s with follow_target_estimator := i.new_estimate.getD s.follow_target_estimator,
               position_setpoint := ⟨Fl.nan, Fl.nan, s.position_setpoint.z⟩,
               velocity_setpoint := ⟨Fl.fin 0, Fl.fin 0, s.velocity_setpoint.z⟩ } := by
  rw [update_stale s i h]
  exact ⟨rfl, rfl, rfl, rfl, rfl, rfl, rfl, rfl, rfl, rfl, rfl⟩

/-- Witness for claim C10 at a concrete stale input. -/
theorem claim_C10_stale_frame_witness :
    ¬ isFresh (lowGroundInput.new_estimate.getD baseState.follow_target_estimator) ∧
    (update baseState lowGroundInput).1.position_setpoint.z = baseState.position_setpoint.z ∧
    (update baseState lowGroundInput).1.yaw_setpoint = baseState.yaw_setpoint :=
  have h : ¬ isFresh (lowGroundInput.new_estimate.getD baseState.follow_target_estimator) := by
    simp [isFresh, lowGroundInput, baseState, staleEstimator]
  ⟨h, (claim_C10_stale_frame baseState lowGroundInput h).1,
      (claim_C10_stale_frame baseState lowGroundInput h).2.2.1⟩

-- Claim C1: emergency ground-clearance override.

/-- Counterexample to claim C1 as stated: the override does NOT apply
"regardless of whether the target estimate is fresh or stale".  In a stale
cycle with a finite 0.5 m distance-to-ground reading the vertical velocity
setpoint keeps its previous value 0 instead of the emergency ascent speed
-0.2. -/
theorem claim_C1_counterexample :
    Fl.isfinite lowGroundInput.dist_to_bottom ∧
    Fl.lt lowGroundInput.dist_to_bottom (Fl.fin MINIMUM_SAFETY_ALTITUDE) ∧
    (update baseState lowGroundInput).1.velocity_setpoint.z = Fl.fin 0 ∧
    Fl.fin (0:ℝ) ≠ Fl.fin (-EMERGENCY_ASCENT_SPEED) := by
  refine ⟨by simp [lowGroundInput], ?_, ?_, ?_⟩
  · simp only [lowGroundInput]
    rw [Fl.lt_fin]
    norm_num [MINIMUM_SAFETY_ALTITUDE]
  · rw [update_stale baseState lowGroundInput
      (by simp [isFresh, lowGroundInput, baseState, staleEstimator])]
    rfl
  · rw [Ne, Fl.fin_inj]
    norm_num [EMERGENCY_ASCENT_SPEED]

/-- Claim C1 (amended): in every FRESH-estimate cycle in which the
distance-to-ground reading is finite and strictly below the 1 m safety
threshold, the emitted vertical velocity setpoint is the fixed ascent speed
-0.2 (upward in NED) and both horizontal position-setpoint components are
NaN, for every controller state and hence regardless of what the tracking
computation produced that cycle.  (In stale cycles the override block is
never reached; the stale hold of claim C2 applies instead.) -/
theorem claim_C1_override (s : State) (i : Input)
    (hfresh : isFresh (i.new_estimate.getD s.follow_target_estimator))
    (hfin : Fl.isfinite i.dist_to_bottom)
    (hlow : Fl.lt i.dist_to_bottom (Fl.fin MINIMUM_SAFETY_ALTITUDE)) :
    (update s i).1.velocity_setpoint.z = Fl.fin (-EMERGENCY_ASCENT_SPEED) ∧
    (update s i).1.position_setpoint.x = Fl.nan ∧
    (update s i).1.position_setpoint.y = Fl.nan := by
  rw [update_fresh s i hfresh]
  refine ⟨?_, ?_, ?_⟩
  · rw [(yawStage_eq _ i).2.1, (overrideStage_active _ i ⟨hfin, hlow⟩).2]
  · rw [(yawStage_eq _ i).1, (overrideStage_active _ i ⟨hfin, hlow⟩).1]
  · rw [(yawStage_eq _ i).1, (overrideStage_active _ i ⟨hfin, hlow⟩).1]

/-- Witness for the amended claim C1 at a concrete fresh low-ground input. -/
theorem claim_C1_override_witness :
    isFresh (lowGroundInput.new_estimate.getD freshState.follow_target_estimator) ∧
    Fl.isfinite lowGroundInput.dist_to_bottom ∧
    Fl.lt lowGroundInput.dist_to_bottom (Fl.fin MINIMUM_SAFETY_ALTITUDE) ∧
    ((update freshState lowGroundInput).1.velocity_setpoint.z =
       Fl.fin (-EMERGENCY_ASCENT_SPEED) ∧
     (update freshState lowGroundInput).1.position_setpoint.x = Fl.nan ∧
     (update freshState lowGroundInput).1.position_setpoint.y = Fl.nan) :=
  have h1 : isFresh (lowGroundInput.new_estimate.getD freshState.follow_target_estimator) := by
    simp [isFresh, lowGroundInput, freshState, freshEstimator, baseState]
  have h2 : Fl.isfinite lowGroundInput.dist_to_bottom := by simp [lowGroundInput]
  have h3 : Fl.lt lowGroundInput.dist_to_bottom (Fl.fin MINIMUM_SAFETY_ALTITUDE) := by
    simp only [lowGroundInput]
    rw [Fl.lt_fin]
    norm_num [MINIMUM_SAFETY_ALTITUDE]
  ⟨h1, h2, h3, claim_C1_override freshState lowGroundInput h1 h2 h3⟩

-- Claims C3 and C4: the angle-unwrap step.

/-- Counterexample to claim C3 as stated: with the raw angle at 675 degrees
(reachable after repeated perspective rotations faster than the filter) and
the Front perspective (target angle 0), the unwrap assigns 360, which is 315
degrees away from the current raw angle — more than the claimed 180. -/
theorem claim_C3_counterexample :
    angleUnwrap 675 (update_follow_me_angle_setting FOLLOW_PERSPECTIVE_FRONT) = 360 ∧
    ¬ |(675:ℝ) - angleUnwrap 675 (update_follow_me_angle_setting FOLLOW_PERSPECTIVE_FRONT)| ≤ 180 := by
  have h : update_follow_me_angle_setting FOLLOW_PERSPECTIVE_FRONT = 0 := by
    norm_num [update_follow_me_angle_setting, FOLLOW_PERSPECTIVE_FRONT,
      FOLLOW_PERSPECTIVE_BEHIND]
  rw [h]
  unfold angleUnwrap
  norm_num

/-- Claim C3 (amended): for any current raw follow angle θ and the target
angle φ produced by the perspective lookup, the assigned angle θ' always
satisfies θ' ≡ φ (mod 360); the distance bound |θ - θ'| ≤ 180 additionally
holds whenever |θ - φ| ≤ 540 (the unwrap shifts by at most one turn, so a
raw angle further than one-and-a-half turns from the target violates it). -/
theorem claim_C3_unwrap (θ : ℝ) (fs : ℤ) :
    (∃ k : ℤ, angleUnwrap θ (update_follow_me_angle_setting fs) =
       update_follow_me_angle_setting fs + 360 * (k : ℝ)) ∧
    (|θ - update_follow_me_angle_setting fs| ≤ 540 →
       |θ - angleUnwrap θ (update_follow_me_angle_setting fs)| ≤ 180) := by
  constructor
  · unfold angleUnwrap
    split_ifs
    · exact ⟨1, by push_cast; ring⟩
    · exact ⟨-1, by push_cast; ring⟩
    · exact ⟨0, by push_cast; ring⟩
  · intro hd
    rw [abs_le] at hd
    rw [abs_le]
    unfold angleUnwrap
    split_ifs with h1 h2 <;> constructor <;> simp <;> linarith [hd.1, hd.2]

/-- Witness for the amended claim C3: current raw angle 100, perspective
Behind (target angle 180). -/
theorem claim_C3_unwrap_witness :
    |(100:ℝ) - update_follow_me_angle_setting FOLLOW_PERSPECTIVE_BEHIND| ≤ 540 ∧
    |(100:ℝ) - angleUnwrap 100 (update_follow_me_angle_setting FOLLOW_PERSPECTIVE_BEHIND)| ≤ 180 :=
  ⟨by norm_num [update_follow_me_angle_setting, FOLLOW_PERSPECTIVE_BEHIND],
   (claim_C3_unwrap 100 FOLLOW_PERSPECTIVE_BEHIND).2
     (by norm_num [update_follow_me_angle_setting, FOLLOW_PERSPECTIVE_BEHIND])⟩

/-- Counterexample to claim C4 as stated: switching from Behind (raw angle
exactly 180) to Front (target angle 0) assigns 0, not the claimed -180 —
both unwrap comparisons are strict, so a difference of exactly 180 falls
through to the unshifted assignment. -/
theorem claim_C4_counterexample :
    angleUnwrap 180 (update_follow_me_angle_setting FOLLOW_PERSPECTIVE_FRONT) = 0 ∧
    (0:ℝ) ≠ -180 := by
  have h : update_follow_me_angle_setting FOLLOW_PERSPECTIVE_FRONT = 0 := by
    norm_num [update_follow_me_angle_setting, FOLLOW_PERSPECTIVE_FRONT,
      FOLLOW_PERSPECTIVE_BEHIND]
  rw [h]
  unfold angleUnwrap
  norm_num

/-- Claim C4 (amended): switching from Behind (raw angle 180) to Front
(target angle 0) assigns the raw angle 0; the difference of exactly 180 takes
neither strict unwrap branch, and the assigned angle still lies within the
180-degree shortest-path bound, so the filter transitions over a 180-degree
arc rather than snapping. -/
theorem claim_C4_boundary :
    angleUnwrap 180 (update_follow_me_angle_setting FOLLOW_PERSPECTIVE_FRONT) = 0 ∧
    |(180:ℝ) - angleUnwrap 180 (update_follow_me_angle_setting FOLLOW_PERSPECTIVE_FRONT)| ≤ 180 := by
  have h : update_follow_me_angle_setting FOLLOW_PERSPECTIVE_FRONT = 0 := by
    norm_num [update_follow_me_angle_setting, FOLLOW_PERSPECTIVE_FRONT,
      FOLLOW_PERSPECTIVE_BEHIND]
  rw [h]
  unfold angleUnwrap
  norm_num

-- Claim C5: the filtered follow angle stays inside [-360, 360].

/-- Claim C5: activation seeds the filtered follow angle inside [-360, 360];
every update() call preserves membership in [-360, 360] (for a nonnegative
cycle duration), so the filtered angle is never observed outside this range
after any cycle of a run started by activate(); and whenever the freshly
blended filter value leaves (-360, 360), the wrap step shifts the filter
state and the raw angle together by the corresponding 360-degree step in the
same cycle. -/
theorem claim_C5_angle_bounded :
    (∀ ls pos yaw s, -360 ≤ ((activate ls pos yaw s).1).follow_angle_filtered ∧
       ((activate ls pos yaw s).1).follow_angle_filtered ≤ 360) ∧
    (∀ s i, 0 ≤ i.deltatime →
       -360 ≤ s.follow_angle_filtered → s.follow_angle_filtered ≤ 360 →
       -360 ≤ (update s i).1.follow_angle_filtered ∧
       (update s i).1.follow_angle_filtered ≤ 360) ∧
    (∀ f r, (f > 360 → angleWrapStep f r = (f - 360, r - 360)) ∧
            (f < -360 → angleWrapStep f r = (f + 360, r + 360))) := by
  refine ⟨?_, ?_, ?_⟩
  · intro ls pos yaw s
    norm_num [activate]
  · intro s i hdt h0 h1
    by_cases hf : isFresh (i.new_estimate.getD s.follow_target_estimator)
    · rw [update_fresh s i hf]
      rw [(yawStage_eq _ i).2.2.2.2.1, (overrideStage_eq _ i).2.1, (setpointStage_eq _ i).2.1]
      simp only [postFilterState]
      split_ifs <;>
        first
        | exact ⟨h0, h1⟩
        | exact followAngleStep_bounds i.deltatime i.nav_ft_fs s.follow_angle_deg
            s.follow_angle_filtered hdt h0 h1
    · rw [update_stale s i hf]
      exact ⟨h0, h1⟩
  · intro f r
    constructor
    · intro hgt
      unfold angleWrapStep
      rw [if_pos hgt]
    · intro hlt
      unfold angleWrapStep
      rw [if_neg (by linarith), if_pos hlt]

/-- Witness for claim C5: a concrete activation, a concrete stale cycle, and
a concrete wrap of an out-of-range blended value. -/
theorem claim_C5_angle_bounded_witness :
    (-360 ≤ ((activate zeroV3 zeroV3 (Fl.fin 0) baseState).1).follow_angle_filtered ∧
     ((activate zeroV3 zeroV3 (Fl.fin 0) baseState).1).follow_angle_filtered ≤ 360) ∧
    (0 ≤ lowGroundInput.deltatime ∧
     -360 ≤ baseState.follow_angle_filtered ∧ baseState.follow_angle_filtered ≤ 360 ∧
     (-360 ≤ (update baseState lowGroundInput).1.follow_angle_filtered ∧
      (update baseState lowGroundInput).1.follow_angle_filtered ≤ 360)) ∧
    ((400:ℝ) > 360 ∧ angleWrapStep 400 100 = (400 - 360, 100 - 360)) :=
  ⟨claim_C5_angle_bounded.1 zeroV3 zeroV3 (Fl.fin 0) baseState,
   ⟨by norm_num [lowGroundInput], by norm_num [baseState], by norm_num [baseState],
    claim_C5_angle_bounded.2.1 baseState lowGroundInput (by norm_num [lowGroundInput])
      (by norm_num [baseState]) (by norm_num [baseState])⟩,
   ⟨by norm_num, (claim_C5_angle_bounded.2.2 400 100).1 (by norm_num)⟩⟩

-- Helper lemmas for the offset-vector and altitude claims.

lemma unitOrZero_norm (v : ℝ × ℝ) :
    norm2 (unitOrZero v) = 1 ∨ unitOrZero v = (0, 0) := by
  unfold unitOrZero
  split_ifs with h
  · left
    have hnn : (0:ℝ) ≤ v.1 ^ 2 + v.2 ^ 2 := by positivity
    have hpos : 0 < norm2 v := lt_trans (by norm_num [UNIT_EPS]) h
    have hS : 0 < v.1 ^ 2 + v.2 ^ 2 := by
      have := Real.sqrt_pos.mp hpos
      exact this
    unfold norm2
    unfold norm2 at hpos
    rw [div_pow, div_pow, Real.sq_sqrt hnn, div_add_div_same, div_self (ne_of_gt hS)]
    exact Real.sqrt_one
  · right
    rfl

lemma unitOrZero_zero : unitOrZero ((0:ℝ), (0:ℝ)) = (0, 0) := by
  have h : ¬ norm2 ((0:ℝ), (0:ℝ)) > UNIT_EPS := by
    unfold norm2 UNIT_EPS
    norm_num
  unfold unitOrZero
  rw [if_neg h]

lemma norm2_zero_pair : norm2 ((0:ℝ), (0:ℝ)) = 0 := by
  unfold norm2
  norm_num

lemma updateTvuv_slow (old : ℝ × ℝ) : updateTvuv zeroV3 old = old := by
  have h : ¬ (Real.sqrt ((0:ℝ) ^ 2 + 0 ^ 2 + 0 ^ 2) > MINIMUM_SPEED_FOR_HEADING_CHANGE ∧
              Real.sqrt ((0:ℝ) ^ 2 + 0 ^ 2 + 0 ^ 2) > FLT_EPSILON) := by
    norm_num [MINIMUM_SPEED_FOR_HEADING_CHANGE]
  simp only [zeroV3, updateTvuv]
  rw [if_neg h]

lemma update_offset_fresh (s : State) (i : Input)
    (h : isFresh (i.new_estimate.getD s.follow_target_estimator)) :
    (update s i).1.offset_vector_filtered =
      (postFilterState
        { s with follow_target_estimator := i.new_estimate.getD s.follow_target_estimator }
        i).offset_vector_filtered := by
  rw [update_fresh s i h, (yawStage_eq _ i).2.2.2.2.2.2, (overrideStage_eq _ i).2.2.2.1,
      (setpointStage_eq _ i).2.2.2]

lemma update_tpf_fresh (s : State) (i : Input)
    (h : isFresh (i.new_estimate.getD s.follow_target_estimator)) :
    (update s i).1.target_position_filtered =
      (postFilterState
        { s with follow_target_estimator := i.new_estimate.getD s.follow_target_estimator }
        i).target_position_filtered := by
  rw [update_fresh s i h, (yawStage_eq _ i).2.2.2.1, (overrideStage_eq _ i).1,
      (setpointStage_eq _ i).1]

lemma postFilterState_offset_still (s : State) (i : Input)
    (hfs : ¬ i.nav_ft_fs = FOLLOW_PERSPECTIVE_NONE)
    (hvel : s.follow_target_estimator.vel = zeroV3)
    (htv : s.target_velocity_unit_vector = (0, 0))
    (hov : s.offset_vector_filtered = (0, 0)) :
    (postFilterState s i).offset_vector_filtered = (0, 0) := by
  simp only [postFilterState]
  rw [if_neg hfs]
  dsimp only
  rw [hvel, htv, hov, updateTvuv_slow]
  unfold filterUpdateV2 filterUpdate
  simp

-- Claim C6: normalization of the offset vector.

/-- Counterexample to claim C6 as stated: with the Behind perspective (not
None), a fresh estimate of a resting target, and the offset filter at (0, 0)
— the state one cycle after switching away from perspective None before the
target's heading is known — the vector fed to the position computation is
the zero vector, not a unit vector, even though the perspective is not
None. -/
theorem claim_C6_counterexample :
    isFresh (behindInput.new_estimate.getD offsetZeroState.follow_target_estimator) ∧
    ¬ behindInput.nav_ft_fs = FOLLOW_PERSPECTIVE_NONE ∧
    unitOrZero ((update offsetZeroState behindInput).1.offset_vector_filtered) = (0, 0) ∧
    ¬ norm2 (unitOrZero ((update offsetZeroState behindInput).1.offset_vector_filtered)) = 1 := by
  have hf : isFresh (behindInput.new_estimate.getD offsetZeroState.follow_target_estimator) := by
    simp [isFresh, behindInput, noGroundInput, lowGroundInput, offsetZeroState, baseState,
      freshEstimator]
  have hfs : ¬ behindInput.nav_ft_fs = FOLLOW_PERSPECTIVE_NONE := by
    simp [behindInput, noGroundInput, lowGroundInput, FOLLOW_PERSPECTIVE_BEHIND,
      FOLLOW_PERSPECTIVE_NONE]
  have hoff : (update offsetZeroState behindInput).1.offset_vector_filtered = (0, 0) := by
    rw [update_offset_fresh offsetZeroState behindInput hf]
    exact postFilterState_offset_still _ behindInput hfs rfl rfl rfl
  rw [hoff]
  exact ⟨hf, hfs, unitOrZero_zero, by rw [unitOrZero_zero, norm2_zero_pair]; norm_num⟩

/-- Claim C6 (amended): in every fresh-estimate cycle the offset vector fed
to the desired-position computation (the normalized filtered offset vector,
before scaling by the follow distance) has magnitude exactly 1 or is the
zero vector; it is guaranteed to be the zero vector when the configured
perspective is None, but it can also be zero for other perspectives while
the filtered offset state has norm below the normalization threshold (for
example right after switching away from None with the target's heading
still unknown). -/
theorem claim_C6_offset_unit (s : State) (i : Input)
    (hfresh : isFresh (i.new_estimate.getD s.follow_target_estimator)) :
    (norm2 (unitOrZero ((update s i).1.offset_vector_filtered)) = 1 ∨
     unitOrZero ((update s i).1.offset_vector_filtered) = (0, 0)) ∧
    (i.nav_ft_fs = FOLLOW_PERSPECTIVE_NONE →
     unitOrZero ((update s i).1.offset_vector_filtered) = (0, 0)) := by
  constructor
  · exact unitOrZero_norm _
  · intro hfs
    rw [update_offset_fresh s i hfresh]
    simp only [postFilterState]
    rw [if_pos hfs]
    exact unitOrZero_zero

/-- Witness for the amended claim C6 at a concrete fresh cycle with
perspective None. -/
theorem claim_C6_offset_unit_witness :
    isFresh (noGroundInput.new_estimate.getD freshState.follow_target_estimator) ∧
    ((norm2 (unitOrZero ((update freshState noGroundInput).1.offset_vector_filtered)) = 1 ∨
      unitOrZero ((update freshState noGroundInput).1.offset_vector_filtered) = (0, 0)) ∧
     (noGroundInput.nav_ft_fs = FOLLOW_PERSPECTIVE_NONE →
      unitOrZero ((update freshState noGroundInput).1.offset_vector_filtered) = (0, 0))) :=
  have hf : isFresh (noGroundInput.new_estimate.getD freshState.follow_target_estimator) := by
    simp [isFresh, noGroundInput, lowGroundInput, freshState, baseState, freshEstimator]
  ⟨hf, claim_C6_offset_unit freshState noGroundInput hf⟩

-- Helper lemmas for the altitude and feed-forward claims.

lemma droneDesiredPosition_z (s : State) (i : Input) :
    (droneDesiredPosition s i).z =
      desiredAltitude i.nav_ft_alt_m s.target_position_filtered.z
        s.position_setpoint.z i.nav_min_ft_ht := rfl

lemma desiredAltitude_track (tz pz : Fl) (mh : ℝ) :
    desiredAltitude FOLLOW_ALTITUDE_MODE_TRACK_TARGET tz pz mh = Fl.sub tz (Fl.fin mh) := by
  unfold desiredAltitude
  rw [if_pos rfl]

lemma desiredAltitude_other (m : ℤ) (tz pz : Fl) (mh : ℝ)
    (h : ¬ m = FOLLOW_ALTITUDE_MODE_TRACK_TARGET) :
    desiredAltitude m tz pz mh = Fl.min pz (Fl.fin (-mh)) := by
  unfold desiredAltitude
  rw [if_neg h]

lemma postFilter_noGround :
    (postFilterState freshState noGroundInput).target_position_filtered = zeroV3 ∧
    (postFilterState freshState noGroundInput).offset_vector_filtered = (0, 0) ∧
    (postFilterState freshState noGroundInput).position_setpoint = zeroV3 := by
  simp only [postFilterState]
  rw [if_pos (show noGroundInput.nav_ft_fs = FOLLOW_PERSPECTIVE_NONE from rfl)]
  dsimp only
  refine ⟨?_, rfl, rfl⟩
  rw [if_neg (by simp [freshState, baseState, zeroV3])]
  simp [freshState, baseState, freshEstimator, zeroV3, filterUpdateV3,
    predict_future_x_ned_est, vadd, vmulR]

lemma noGround_desired :
    droneDesiredPosition (postFilterState freshState noGroundInput) noGroundInput = zeroV3 := by
  obtain ⟨h1, h2, h3⟩ := postFilter_noGround
  simp only [droneDesiredPosition]
  rw [h1, h2, h3, unitOrZero_zero]
  simp [zeroV3, desiredAltitude, Fl.min, noGroundInput, lowGroundInput,
    FOLLOW_ALTITUDE_MODE_TRACK_TARGET]

-- Claim C7: altitude computation per altitude mode.

/-- Claim C7: in every fresh-estimate cycle (here observed away from the
ground-clearance override, which otherwise rewrites the setpoint), the
committed setpoint altitude is the desired altitude computed from the
altitude-mode selector: TrackTarget subtracts the minimum-height parameter
from the filtered target altitude, while Constant and every unrecognized
selector value clamp to min(previous position-setpoint altitude,
-minimum_height). -/
theorem claim_C7_altitude (s : State) (i : Input)
    (hfresh : isFresh (i.new_estimate.getD s.follow_target_estimator))
    (hfin : Fl.isfinite (droneDesiredPosition (postFilterState
        { s with follow_target_estimator := i.new_estimate.getD s.follow_target_estimator }
        i) i).x ∧
      Fl.isfinite (droneDesiredPosition (postFilterState
        { s with follow_target_estimator := i.new_estimate.getD s.follow_target_estimator }
        i) i).y ∧
      Fl.isfinite (droneDesiredPosition (postFilterState
        { s with follow_target_estimator := i.new_estimate.getD s.follow_target_estimator }
        i) i).z)
    (hno : ¬ (Fl.isfinite i.dist_to_bottom ∧
              Fl.lt i.dist_to_bottom (Fl.fin MINIMUM_SAFETY_ALTITUDE))) :
    (update s i).1.position_setpoint.z =
      (droneDesiredPosition (postFilterState
        { s with follow_target_estimator := i.new_estimate.getD s.follow_target_estimator }
        i) i).z ∧
    (i.nav_ft_alt_m = FOLLOW_ALTITUDE_MODE_TRACK_TARGET →
      (droneDesiredPosition (postFilterState
        { s with follow_target_estimator := i.new_estimate.getD s.follow_target_estimator }
        i) i).z =
        Fl.sub (update s i).1.target_position_filtered.z (Fl.fin i.nav_min_ft_ht)) ∧
    (¬ i.nav_ft_alt_m = FOLLOW_ALTITUDE_MODE_TRACK_TARGET →
      (droneDesiredPosition (postFilterState
        { s with follow_target_estimator := i.new_estimate.getD s.follow_target_estimator }
        i) i).z =
        Fl.min s.position_setpoint.z (Fl.fin (-i.nav_min_ft_ht))) := by
  refine ⟨?_, ?_, ?_⟩
  · rw [update_fresh s i hfresh, (yawStage_eq _ i).1, overrideStage_skip _ i hno]
    by_cases hband : Fl.lt (Fl.abs (Fl.sub (droneDesiredPosition (postFilterState
        { s with follow_target_estimator := i.new_estimate.getD s.follow_target_estimator }
        i) i).z i.position.z)) (Fl.fin ALT_ACCEPTANCE_THRESHOLD)
    · rw [(setpointStage_inband _ i hfin hband).1]
    · rw [setpointStage_outband _ i hfin hband]
  · intro hm
    rw [update_tpf_fresh s i hfresh, droneDesiredPosition_z, hm, desiredAltitude_track]
  · intro hm
    rw [droneDesiredPosition_z, desiredAltitude_other _ _ _ _ hm, (postFilterState_eq _ i).1]

/-- Witness for claim C7 at a concrete fresh cycle (the resting scenario
with Constant altitude mode, where the desired position evaluates to the
origin). -/
theorem claim_C7_altitude_witness :
    isFresh (noGroundInput.new_estimate.getD freshState.follow_target_estimator) ∧
    (Fl.isfinite (droneDesiredPosition (postFilterState freshState noGroundInput)
        noGroundInput).x ∧
     Fl.isfinite (droneDesiredPosition (postFilterState freshState noGroundInput)
        noGroundInput).y ∧
     Fl.isfinite (droneDesiredPosition (postFilterState freshState noGroundInput)
        noGroundInput).z) ∧
    ¬ (Fl.isfinite noGroundInput.dist_to_bottom ∧
       Fl.lt noGroundInput.dist_to_bottom (Fl.fin MINIMUM_SAFETY_ALTITUDE)) ∧
    ((update freshState noGroundInput).1.position_setpoint.z =
       (droneDesiredPosition (postFilterState freshState noGroundInput) noGroundInput).z ∧
     (noGroundInput.nav_ft_alt_m = FOLLOW_ALTITUDE_MODE_TRACK_TARGET →
       (droneDesiredPosition (postFilterState freshState noGroundInput) noGroundInput).z =
         Fl.sub (update freshState noGroundInput).1.target_position_filtered.z
           (Fl.fin noGroundInput.nav_min_ft_ht)) ∧
     (¬ noGroundInput.nav_ft_alt_m = FOLLOW_ALTITUDE_MODE_TRACK_TARGET →
       (droneDesiredPosition (postFilterState freshState noGroundInput) noGroundInput).z =
         Fl.min freshState.position_setpoint.z (Fl.fin (-noGroundInput.nav_min_ft_ht)))) :=
  have h1 : isFresh (noGroundInput.new_estimate.getD freshState.follow_target_estimator) := by
    simp [isFresh, noGroundInput, lowGroundInput, freshState, baseState, freshEstimator]
  have h2 : Fl.isfinite (droneDesiredPosition (postFilterState freshState noGroundInput)
        noGroundInput).x ∧
      Fl.isfinite (droneDesiredPosition (postFilterState freshState noGroundInput)
        noGroundInput).y ∧
      Fl.isfinite (droneDesiredPosition (postFilterState freshState noGroundInput)
        noGroundInput).z := by
    rw [noGround_desired]
    simp [zeroV3]
  have h3 : ¬ (Fl.isfinite noGroundInput.dist_to_bottom ∧
      Fl.lt noGroundInput.dist_to_bottom (Fl.fin MINIMUM_SAFETY_ALTITUDE)) := by
    simp [noGroundInput]
  ⟨h1, h2, h3, claim_C7_altitude freshState noGroundInput h1 h2 h3⟩

-- Claim C8: activation resets.

/-- Claim C8: for every input setpoint (and every vehicle position, yaw and
prior state), activate() resets the target-position filter to all-NaN, the
follow-angle filter to 0, the velocity feed-forward scale filter to 0 and
the yawspeed setpoint to 0, and seeds the offset-vector filter with the
heading unit vector (cos yaw, -sin yaw) when the yaw is finite and with
(1, 0) otherwise; it reports success unconditionally. -/
theorem claim_C8_activate (ls pos : Vec3F) (yaw : Fl) (s : State) :
    ((activate ls pos yaw s).1).target_position_filtered = ⟨Fl.nan, Fl.nan, Fl.nan⟩ ∧
    ((activate ls pos yaw s).1).follow_angle_filtered = 0 ∧
    ((activate ls pos yaw s).1).velocity_ff_scale = 0 ∧
    ((activate ls pos yaw s).1).yawspeed_setpoint = 0 ∧
    (∀ ψ : ℝ, yaw = Fl.fin ψ →
      ((activate ls pos yaw s).1).offset_vector_filtered = (Real.cos ψ, -Real.sin ψ)) ∧
    (yaw = Fl.nan → ((activate ls pos yaw s).1).offset_vector_filtered = (1, 0)) ∧
    (activate ls pos yaw s).2 = true := by
  refine ⟨rfl, rfl, rfl, rfl, ?_, ?_, rfl⟩
  · intro ψ h
    subst h
    rfl
  · intro h
    subst h
    rfl

/-- Witness for claim C8 with yaw 0 (heading (cos 0, -sin 0)). -/
theorem claim_C8_activate_witness :
    (Fl.fin (0:ℝ) = Fl.fin (0:ℝ)) ∧
    ((activate zeroV3 zeroV3 (Fl.fin 0) baseState).1).offset_vector_filtered =
      (Real.cos 0, -Real.sin 0) ∧
    ((activate zeroV3 zeroV3 (Fl.fin 0) baseState).1).follow_angle_filtered = 0 ∧
    (activate zeroV3 zeroV3 (Fl.fin 0) baseState).2 = true :=
  ⟨rfl, (claim_C8_activate zeroV3 zeroV3 (Fl.fin 0) baseState).2.2.2.2.1 0 rfl,
   (claim_C8_activate zeroV3 zeroV3 (Fl.fin 0) baseState).2.1,
   (claim_C8_activate zeroV3 zeroV3 (Fl.fin 0) baseState).2.2.2.2.2.2⟩

-- Claim C9: velocity feed-forward in the accepted branch.

lemma update_fresh_none (s : State) (i : Input) (hni : i.new_estimate = none)
    (h : isFresh s.follow_target_estimator) :
    (update s i).1 =
      yawStage (overrideStage (setpointStage (postFilterState s i) i) i) i := by
  have h' : isFresh (i.new_estimate.getD s.follow_target_estimator) := by
    rw [hni]
    exact h
  rw [update_fresh s i h', hni]
  rfl

lemma postFilter_moving :
    (postFilterState movingState noGroundInput).target_position_filtered =
      ⟨Fl.fin (13/5), Fl.fin 0, Fl.fin 0⟩ ∧
    (postFilterState movingState noGroundInput).offset_vector_filtered = (0, 0) ∧
    (postFilterState movingState noGroundInput).position_setpoint = zeroV3 := by
  simp only [postFilterState]
  rw [if_pos (show noGroundInput.nav_ft_fs = FOLLOW_PERSPECTIVE_NONE from rfl)]
  dsimp only
  refine ⟨?_, rfl, rfl⟩
  rw [if_neg (by simp [movingState, baseState])]
  have ha : alphaOf noGroundInput.deltatime POSITION_FILTER_ALPHA = 2/5 := by
    norm_num [alphaOf, noGroundInput, lowGroundInput, POSITION_FILTER_ALPHA]
  rw [ha]
  simp [movingState, baseState, movingEstimator, zeroV3, filterUpdateV3,
    predict_future_x_ned_est, vadd, vmulR, POSITION_FILTER_ALPHA]
  norm_num

lemma moving_desired :
    droneDesiredPosition (postFilterState movingState noGroundInput) noGroundInput =
      ⟨Fl.fin (13/5), Fl.fin 0, Fl.fin 0⟩ := by
  obtain ⟨h1, h2, h3⟩ := postFilter_moving
  simp only [droneDesiredPosition]
  rw [h1, h2, h3, unitOrZero_zero]
  simp [zeroV3, desiredAltitude, Fl.min, noGroundInput, lowGroundInput,
    FOLLOW_ALTITUDE_MODE_TRACK_TARGET]

/-- Counterexample to claim C9 as stated: the claim sequences the ramp of
the feed-forward scale filter before the velocity computation, i.e. the
velocity would use the ramped (post-update) filter value.  In a concrete
fresh in-band cycle with the filter at 0 and a fast target, the emitted
horizontal velocity is 0 (the source multiplies by the filter state read
BEFORE the ramp, line 209 versus line 225), while the claimed formula with
the ramped scale (1/2 after this cycle) yields 13/10. -/
theorem claim_C9_counterexample :
    (update movingState noGroundInput).1.velocity_ff_scale = 1/2 ∧
    (update movingState noGroundInput).1.velocity_setpoint.x = Fl.fin 0 ∧
    Fl.mul (Fl.div (Fl.sub (droneDesiredPosition (postFilterState movingState noGroundInput)
        noGroundInput).x movingState.position_setpoint.x) (Fl.fin noGroundInput.deltatime))
      (Fl.fin ((update movingState noGroundInput).1.velocity_ff_scale)) = Fl.fin (13/10) ∧
    ¬ Fl.fin (0:ℝ) = Fl.fin ((13:ℝ)/10) := by
  have hf : isFresh movingState.follow_target_estimator := by
    simp [isFresh, movingState, baseState, movingEstimator]
  have hupd := update_fresh_none movingState noGroundInput rfl hf
  have hno : ¬ (Fl.isfinite noGroundInput.dist_to_bottom ∧
      Fl.lt noGroundInput.dist_to_bottom (Fl.fin MINIMUM_SAFETY_ALTITUDE)) := by
    simp [noGroundInput]
  have hfin : Fl.isfinite (droneDesiredPosition (postFilterState movingState noGroundInput)
        noGroundInput).x ∧
      Fl.isfinite (droneDesiredPosition (postFilterState movingState noGroundInput)
        noGroundInput).y ∧
      Fl.isfinite (droneDesiredPosition (postFilterState movingState noGroundInput)
        noGroundInput).z := by
    rw [moving_desired]
    exact ⟨trivial, trivial, trivial⟩
  have hband : Fl.lt (Fl.abs (Fl.sub (droneDesiredPosition (postFilterState movingState
        noGroundInput) noGroundInput).z noGroundInput.position.z))
      (Fl.fin ALT_ACCEPTANCE_THRESHOLD) := by
    rw [moving_desired]
    show Fl.lt (Fl.abs (Fl.sub (Fl.fin 0) (Fl.fin 0))) (Fl.fin ALT_ACCEPTANCE_THRESHOLD)
    simp
    norm_num [ALT_ACCEPTANCE_THRESHOLD]
  have hsq : Real.sqrt ((1:ℝ) ^ 2 + 0 ^ 2 + 0 ^ 2) ≥ MINIMUM_SPEED_FOR_HEADING_CHANGE := by
    rw [show ((1:ℝ) ^ 2 + 0 ^ 2 + 0 ^ 2) = 1 by norm_num, Real.sqrt_one]
    norm_num [MINIMUM_SPEED_FOR_HEADING_CHANGE]
  have hspeed : speedAtLeast (postFilterState movingState noGroundInput).follow_target_estimator.vel
      MINIMUM_SPEED_FOR_HEADING_CHANGE := by
    rw [(postFilterState_eq _ _).2.2.2]
    exact hsq
  have hffs : (update movingState noGroundInput).1.velocity_ff_scale = 1/2 := by
    rw [hupd, (yawStage_eq _ _).2.2.1, (overrideStage_eq _ _).2.2.2.2,
        (setpointStage_inband _ _ hfin hband).2.2, if_pos hspeed,
        (postFilterState_eq _ _).2.2.1]
    norm_num [filterUpdate, alphaOf, noGroundInput, lowGroundInput,
      VELOCITY_FF_FILTER_ALPHA, movingState, baseState]
  have hvx : (update movingState noGroundInput).1.velocity_setpoint.x = Fl.fin 0 := by
    rw [hupd, (yawStage_eq _ _).2.1, overrideStage_skip _ _ hno,
        (setpointStage_inband _ _ hfin hband).2.1, moving_desired,
        (postFilterState_eq _ _).1, (postFilterState_eq _ _).2.2.1]
    simp [vmulR, vdivR, vsub, movingState, baseState, zeroV3, noGroundInput, lowGroundInput]
  refine ⟨hffs, hvx, ?_, ?_⟩
  · rw [hffs, moving_desired]
    simp only [movingState, baseState, noGroundInput, lowGroundInput, zeroV3]
    norm_num [Fl.sub_fin, Fl.div_fin, Fl.mul_fin, Fl.fin_inj]
  · norm_num [Fl.fin_inj]

/-- Claim C9 (amended): in every fresh-estimate cycle with a finite desired
position inside the altitude acceptance band (and away from the
ground-clearance override, which otherwise rewrites the result), the
velocity setpoint is (desired position - previous position setpoint) / dt
multiplied by the feed-forward scale filter's PRE-ramp state, the desired
position is committed as the new position setpoint, and the filter is then
ramped toward 1 when the target's speed is at least the heading-change
threshold and toward 0 otherwise — the ramp happens after the setpoint
computation, so the newly ramped value only affects the next cycle. -/
theorem claim_C9_velocity_ff (s : State) (i : Input)
    (hfresh : isFresh (i.new_estimate.getD s.follow_target_estimator))
    (hfin : Fl.isfinite (droneDesiredPosition (postFilterState
        { s with follow_target_estimator := i.new_estimate.getD s.follow_target_estimator }
        i) i).x ∧
      Fl.isfinite (droneDesiredPosition (postFilterState
        { s with follow_target_estimator := i.new_estimate.getD s.follow_target_estimator }
        i) i).y ∧
      Fl.isfinite (droneDesiredPosition (postFilterState
        { s with follow_target_estimator := i.new_estimate.getD s.follow_target_estimator }
        i) i).z)
    (hband : Fl.lt (Fl.abs (Fl.sub (droneDesiredPosition (postFilterState
        { s with follow_target_estimator := i.new_estimate.getD s.follow_target_estimator }
        i) i).z i.position.z)) (Fl.fin ALT_ACCEPTANCE_THRESHOLD))
    (hno : ¬ (Fl.isfinite i.dist_to_bottom ∧
              Fl.lt i.dist_to_bottom (Fl.fin MINIMUM_SAFETY_ALTITUDE))) :
    (update s i).1.velocity_setpoint =
      vmulR (vdivR (vsub (droneDesiredPosition (postFilterState
        { s with follow_target_estimator := i.new_estimate.getD s.follow_target_estimator }
        i) i) s.position_setpoint) i.deltatime) s.velocity_ff_scale ∧
    (update s i).1.position_setpoint =
      droneDesiredPosition (postFilterState
        { s with follow_target_estimator := i.new_estimate.getD s.follow_target_estimator }
        i) i ∧
    (update s i).1.velocity_ff_scale =
      filterUpdate (alphaOf i.deltatime VELOCITY_FF_FILTER_ALPHA) s.velocity_ff_scale
        (if speedAtLeast (i.new_estimate.getD s.follow_target_estimator).vel
            MINIMUM_SPEED_FOR_HEADING_CHANGE then 1 else 0) := by
  refine ⟨?_, ?_, ?_⟩
  · rw [update_fresh s i hfresh, (yawStage_eq _ i).2.1, overrideStage_skip _ i hno,
        (setpointStage_inband _ i hfin hband).2.1, (postFilterState_eq _ i).1,
        (postFilterState_eq _ i).2.2.1]
  · rw [update_fresh s i hfresh, (yawStage_eq _ i).1, overrideStage_skip _ i hno,
        (setpointStage_inband _ i hfin hband).1]
  · rw [update_fresh s i hfresh, (yawStage_eq _ i).2.2.1, (overrideStage_eq _ i).2.2.2.2,
        (setpointStage_inband _ i hfin hband).2.2, (postFilterState_eq _ i).2.2.1,
        (postFilterState_eq _ i).2.2.2]

/-- Witness for the amended claim C9 at the concrete moving-target cycle. -/
theorem claim_C9_velocity_ff_witness :
    isFresh (noGroundInput.new_estimate.getD movingState.follow_target_estimator) ∧
    (Fl.isfinite (droneDesiredPosition (postFilterState movingState noGroundInput)
        noGroundInput).x ∧
     Fl.isfinite (droneDesiredPosition (postFilterState movingState noGroundInput)
        noGroundInput).y ∧
     Fl.isfinite (droneDesiredPosition (postFilterState movingState noGroundInput)
        noGroundInput).z) ∧
    Fl.lt (Fl.abs (Fl.sub (droneDesiredPosition (postFilterState movingState noGroundInput)
        noGroundInput).z noGroundInput.position.z)) (Fl.fin ALT_ACCEPTANCE_THRESHOLD) ∧
    ¬ (Fl.isfinite noGroundInput.dist_to_bottom ∧
       Fl.lt noGroundInput.dist_to_bottom (Fl.fin MINIMUM_SAFETY_ALTITUDE)) ∧
    ((update movingState noGroundInput).1.velocity_setpoint =
       vmulR (vdivR (vsub (droneDesiredPosition (postFilterState movingState noGroundInput)
         noGroundInput) movingState.position_setpoint) noGroundInput.deltatime)
         movingState.velocity_ff_scale ∧
     (update movingState noGroundInput).1.position_setpoint =
       droneDesiredPosition (postFilterState movingState noGroundInput) noGroundInput ∧
     (update movingState noGroundInput).1.velocity_ff_scale =
       filterUpdate (alphaOf noGroundInput.deltatime VELOCITY_FF_FILTER_ALPHA)
         movingState.velocity_ff_scale
         (if speedAtLeast (noGroundInput.new_estimate.getD
             movingState.follow_target_estimator).vel
             MINIMUM_SPEED_FOR_HEADING_CHANGE then 1 else 0)) :=
  have h1 : isFresh (noGroundInput.new_estimate.getD movingState.follow_target_estimator) := by
    simp [isFresh, noGroundInput, lowGroundInput, movingState, baseState, movingEstimator]
  have h2 : Fl.isfinite (droneDesiredPosition (postFilterState movingState noGroundInput)
        noGroundInput).x ∧
      Fl.isfinite (droneDesiredPosition (postFilterState movingState noGroundInput)
        noGroundInput).y ∧
      Fl.isfinite (droneDesiredPosition (postFilterState movingState noGroundInput)
        noGroundInput).z := by
    rw [moving_desired]
    exact ⟨trivial, trivial, trivial⟩
  have h3 : Fl.lt (Fl.abs (Fl.sub (droneDesiredPosition (postFilterState movingState
        noGroundInput) noGroundInput).z noGroundInput.position.z))
      (Fl.fin ALT_ACCEPTANCE_THRESHOLD) := by
    rw [moving_desired]
    show Fl.lt (Fl.abs (Fl.sub (Fl.fin 0) (Fl.fin 0))) (Fl.fin ALT_ACCEPTANCE_THRESHOLD)
    simp
    norm_num [ALT_ACCEPTANCE_THRESHOLD]
  have h4 : ¬ (Fl.isfinite noGroundInput.dist_to_bottom ∧
      Fl.lt noGroundInput.dist_to_bottom (Fl.fin MINIMUM_SAFETY_ALTITUDE)) := by
    simp [noGroundInput]
  ⟨h1, h2, h3, h4, claim_C9_velocity_ff movingState noGroundInput h1 h2 h3 h4⟩
